import Mathlib

/-!
Shallow embedding of `src/research_rabbit/utils.py` (the whole repository's
single source file) and proofs about it.

Python values that can flow through these functions are modelled by `PyVal`
(strings, ints, `None`, lists, and dicts with string keys in insertion
order); Python exceptions by `PyErr`; fallible code returns `Except`.
`print` diagnostics are modelled by returning, next to the formatted string,
the list of warning lines printed (in order) on the successful path.
-/

/-- Python runtime values reachable in `utils.py`: JSON-ish data. A dict is a
key-ordered association list (Python dicts preserve insertion order and have
no duplicate keys). -/
inductive PyVal where
  | str : String → PyVal
  | int : Int → PyVal
  | none : PyVal
  | list : List PyVal → PyVal
  | dict : List (String × PyVal) → PyVal

/-- Python exceptions raised by the modelled code paths. -/
inductive PyErr where
  | keyError : String → PyErr
  | typeError : String → PyErr
  | valueError : String → PyErr
  | attributeError : String → PyErr
deriving DecidableEq

/-- First-match lookup in a dict's association list (Python dicts cannot hold
duplicate keys, so first-match agrees with Python lookup). -/
def dlookup : List (String × PyVal) → String → Option PyVal
  | [], _ => Option.none
  | kv :: rest, k => if kv.1 = k then Option.some kv.2 else dlookup rest k

mutual

/-- Python `repr` of a value, used by `str()` inside containers. String
escaping of quotes/control characters is not modelled (no claim reaches it). -/
def pyRepr : PyVal → String
  | .str s => "'" ++ s ++ "'"
  | .int n => toString n
  | .none => "None"
  | .list vs => "[" ++ pyReprList vs ++ "]"
  | .dict kvs => "\x7b" ++ pyReprDict kvs ++ "\x7d"

/-- Comma-separated reprs of a list's elements. -/
def pyReprList : List PyVal → String
  | [] => ""
  | [v] => pyRepr v
  | v :: rest => pyRepr v ++ ", " ++ pyReprList rest

/-- Comma-separated reprs of a dict's entries. -/
def pyReprDict : List (String × PyVal) → String
  | [] => ""
  | [kv] => "'" ++ kv.1 ++ "': " ++ pyRepr kv.2
  | kv :: rest => "'" ++ kv.1 ++ "': " ++ pyRepr kv.2 ++ ", " ++ pyReprDict rest

end

/-- Python `str()` as used by f-string interpolation: identity on strings,
`repr`-style otherwise. -/
def pyStr : PyVal → String
  | .str s => s
  | v => pyRepr v

/-- Python iteration over a value (`for x in v`, `list.extend(v)`): a string
yields its characters, a list its elements, a dict its keys; ints and `None`
raise `TypeError`. -/
def pyIter : PyVal → Except PyErr (List PyVal)
  | .str s => .ok (s.data.map fun c => .str (String.singleton c))
  | .list vs => .ok vs
  | .dict kvs => .ok (kvs.map fun kv => .str kv.1)
  | .int _ => .error (.typeError "int object is not iterable")
  | .none => .error (.typeError "NoneType object is not iterable")

/-- Python subscript `v[k]` with a string key: dict lookup (KeyError when
missing); strings and lists reject string indices; ints and `None` are not
subscriptable. -/
def pySubscript : PyVal → String → Except PyErr PyVal
  | .dict kvs, k =>
      match dlookup kvs k with
      | Option.some v => .ok v
      | Option.none => .error (.keyError k)
  | .str _, _ => .error (.typeError "string indices must be integers")
  | .list _, _ => .error (.typeError "list indices must be integers or slices, not str")
  | .int _, _ => .error (.typeError "int object is not subscriptable")
  | .none, _ => .error (.typeError "NoneType object is not subscriptable")

/-- Python `v.get(k, default)`: defined on dicts, `AttributeError` otherwise. -/
def pyGetD (v : PyVal) (k : String) (dflt : PyVal) : Except PyErr PyVal :=
  match v with
  | .dict kvs => .ok ((dlookup kvs k).getD dflt)
  | _ => .error (.attributeError ("object has no attribute get"))

/-- Python `len(v)` (as an `Int` for comparison with `char_limit`). -/
def pyLen : PyVal → Except PyErr Int
  | .str s => .ok s.length
  | .list vs => .ok vs.length
  | .dict kvs => .ok kvs.length
  | .int _ => .error (.typeError "object of type int has no len")
  | .none => .error (.typeError "object of type NoneType has no len")

/-- Python string slice `s[:n]` for an `Int` bound: negative bounds count
from the end, clamped at zero. -/
def pyTakeStr (s : String) (n : Int) : String :=
  if n < 0 then String.mk (s.data.take (s.length - n.natAbs)) else String.mk (s.data.take n.toNat)

/-- Python list slice `l[:n]` for an `Int` bound. -/
def pySliceList {α : Type} (l : List α) (n : Int) : List α :=
  if n < 0 then l.take (l.length - n.natAbs) else l.take n.toNat

/-- Characters removed by Python `str.strip()` with no argument. -/
def pyIsSpace (c : Char) : Bool :=
  c = ' ' ∨ c = '\t' ∨ c = '\n' ∨ c = '\r' ∨ c = '\x0b' ∨ c = '\x0c'

/-- Python `s.strip()`: drop leading and trailing whitespace. -/
def pyStrip (s : String) : String :=
  String.mk (((s.data.dropWhile pyIsSpace).reverse.dropWhile pyIsSpace).reverse)

/-- Python hashability of a value (dict keys must be hashable; lists and
dicts are not). -/
def pyHashable : PyVal → Bool
  | .list _ => false
  | .dict _ => false
  | _ => true

mutual

/-- Structural equality test on Python values (Python `==` restricted to the
value forms modelled here, where it coincides with structural equality). -/
def pyValBEq : PyVal → PyVal → Bool
  | .str a, .str b => a = b
  | .int a, .int b => a = b
  | .none, .none => true
  | .list a, .list b => pyValListBEq a b
  | .dict a, .dict b => pyValDictBEq a b
  | _, _ => false

/-- Pointwise equality test on lists of Python values. -/
def pyValListBEq : List PyVal → List PyVal → Bool
  | [], [] => true
  | a :: as, b :: bs => pyValBEq a b && pyValListBEq as bs
  | _, _ => false

/-- Pointwise equality test on dict entry lists. -/
def pyValDictBEq : List (String × PyVal) → List (String × PyVal) → Bool
  | [], [] => true
  | a :: as, b :: bs => (a.1 = b.1 && pyValBEq a.2 b.2) && pyValDictBEq as bs
  | _, _ => false

end

/-- Error-propagating map over a list, modelling a Python `for` loop that
builds up a list and lets the first exception escape. -/
def mapME {α β : Type} (f : α → Except PyErr β) : List α → Except PyErr (List β)
  | [] => .ok []
  | a :: as => do
      let b ← f a
      let bs ← mapME f as
      .ok (b :: bs)

/-- Client for interacting with a SearXNG instance (`SearxngClient`). -/
structure SearxngClient where
  base_url : String
deriving DecidableEq

/-- The constructor `SearxngClient.__init__`: stores `base_url.rstrip('/')`,
dropping every trailing slash. -/
def SearxngClient.init (baseUrl : String) : SearxngClient :=
  ⟨String.mk ((baseUrl.data.reverse.dropWhile (fun c => c = '/')).reverse)⟩

/-- One normalized result entry built in `SearxngClient.search`'s loop:
`{'title': result.get('title',''), 'url': result.get('url',''),
'content': result.get('content',''), 'raw_content': None}`. -/
def searxngMapResult (r : PyVal) : Except PyErr PyVal := do
  let t ← pyGetD r "title" (.str "")
  let u ← pyGetD r "url" (.str "")
  let c ← pyGetD r "content" (.str "")
  .ok (.dict [("title", t), ("url", u), ("content", c), ("raw_content", PyVal.none)])

/-- Python slice `v[:n]` on an arbitrary value (only the forms the modelled
code can reach): lists and strings slice, other values raise `TypeError`. -/
def pySliceVal (v : PyVal) (n : Int) : Except PyErr PyVal :=
  match v with
  | .list vs => .ok (.list (pySliceList vs n))
  | .str s => .ok (.str (pyTakeStr s n))
  | .dict _ => .error (.typeError "unhashable type: slice")
  | .int _ => .error (.typeError "int object is not subscriptable")
  | .none => .error (.typeError "NoneType object is not subscriptable")

/-- The body of `SearxngClient.search` from the point the HTTP GET has
returned and `data = response.json()` is available (the transport itself is
an external collaborator and is not modelled; `query`, `max_results` and
`include_raw_content` are the Python parameters, `include_raw_content`
having no effect, and `data` stands for the parsed JSON body):
`data.get('results', [])[:max_results]`, each entry mapped through
`searxngMapResult`, wrapped as `{'results': results}`. -/
def SearxngClient.search (_c : SearxngClient) (_query : String) (maxResults : Int)
    (_includeRawContent : Bool) (data : PyVal) : Except PyErr PyVal := do
  let results0 ← pyGetD data "results" (.list [])
  let sliced ← pySliceVal results0 maxResults
  let items ← pyIter sliced
  let out ← mapME searxngMapResult items
  .ok (.dict [("results", .list out)])

/-- Outcome of the `web_search` dispatcher: which provider client is
constructed and called with which arguments, or the error raised before any
provider call. An `error` outcome means no client was constructed and no
HTTP request was attempted. -/
inductive WebSearchOutcome where
  | tavilySearch (query : String) (maxResults : Int) (includeRawContent : Bool)
  | searxngSearch (client : SearxngClient) (query : String) (maxResults : Int)
      (includeRawContent : Bool)
  | error (e : PyErr)
deriving DecidableEq

/-- The dispatcher `web_search(query, search_provider, searxng_url,
include_raw_content, max_results)`. The `search_provider` annotation is a
`Literal` type hint only, so any string can arrive at runtime. `if not
searxng_url` is Python falsiness: `None` or the empty string. -/
def web_search (query : String) (search_provider : String := "tavily")
    (searxng_url : Option String := Option.none) (include_raw_content : Bool := true)
    (max_results : Int := 3) : WebSearchOutcome :=
  if search_provider = "tavily" then
    .tavilySearch query max_results include_raw_content
  else if search_provider = "searxng" then
    if searxng_url.getD "" = "" then
      .error (.valueError "searxng_url must be provided when using SearXNG")
    else
      .searxngSearch (SearxngClient.init (searxng_url.getD "")) query max_results
        include_raw_content
  else
    .error (.valueError ("Unsupported search provider: " ++ search_provider ++
      ". Must be either 'tavily' or 'searxng'."))

/-- Flattening of one element of a list passed to
`deduplicate_and_format_sources`: `if isinstance(response, dict) and
'results' in response: sources_list.extend(response['results']) else:
sources_list.extend(response)`. `extend` iterates its argument. -/
def flattenResp (r : PyVal) : Except PyErr (List PyVal) :=
  match r with
  | .dict kvs =>
      match dlookup kvs "results" with
      | Option.some v => pyIter v
      | Option.none => pyIter (.dict kvs)
  | v => pyIter v

/-- The input-normalization step of `deduplicate_and_format_sources` (lines
109-120): a dict yields `search_response['results']`, a list is flattened
element-wise, anything else raises the input-shape `ValueError`. The dict
branch's `sources_list` is iterated by the deduplication loop immediately
after, with no observable effect in between, so iteration is folded in
here. -/
def getSourcesList : PyVal → Except PyErr (List PyVal)
  | .dict kvs =>
      match dlookup kvs "results" with
      | Option.some v => pyIter v
      | Option.none => .error (.keyError "results")
  | .list es => (mapME flattenResp es).map List.flatten
  | _ => .error (.valueError "Input must be either a dict with 'results' or a list of search results")

/-- The deduplication loop (lines 122-126): an insertion-ordered dict keyed
by `source['url']`, inserting only first occurrences. Subscripting can raise
`KeyError`/`TypeError`; an unhashable key raises `TypeError` at the `in`
test. -/
def dedupLoop : List PyVal → List (PyVal × PyVal) → Except PyErr (List (PyVal × PyVal))
  | [], acc => .ok acc
  | s :: rest, acc => do
      let u ← pySubscript s "url"
      if pyHashable u then
        if acc.any (fun kv => pyValBEq kv.1 u) then dedupLoop rest acc
        else dedupLoop rest (acc ++ [(u, s)])
      else .error (.typeError "unhashable type")

/-- Python `raw_content[:char_limit] + "... [truncated]"` on the value left
in `raw_content` (a string concatenates; a list slices but then rejects the
string concatenation; other forms cannot be sliced — the `len` test already
excludes ints and `None` here, but the definition is total). -/
def pyTruncMark (v : PyVal) (n : Int) : Except PyErr PyVal :=
  match v with
  | .str s => .ok (.str (pyTakeStr s n ++ "... [truncated]"))
  | .list _ => .error (.typeError "can only concatenate list to list")
  | .dict _ => .error (.typeError "unhashable type: slice")
  | .int _ => .error (.typeError "int object is not subscriptable")
  | .none => .error (.typeError "NoneType object is not subscriptable")

/-- One iteration of the formatting loop (lines 130-144): the block text
emitted for one deduplicated source, together with the warning lines printed
while producing it. -/
def renderSource (s : PyVal) (maxTok : Int) (includeRawContent : Bool) :
    Except PyErr (String × List String) := do
  let title ← pySubscript s "title"
  let url ← pySubscript s "url"
  let content ← pySubscript s "content"
  let blockHead := "Source " ++ pyStr title ++ ":\n===\nURL: " ++ pyStr url ++
    "\n===\nMost relevant content from source: " ++ pyStr content ++ "\n===\n"
  if includeRawContent then
    let charLimit : Int := maxTok * 4
    let raw0 ← pyGetD s "raw_content" (.str "")
    let rawWarn : PyVal × List String :=
      match raw0 with
      | PyVal.none =>
          (.str "", ["Warning: No raw_content found for source " ++ pyStr url])
      | _ => (raw0, [])
    let n ← pyLen rawWarn.1
    let rawFinal ← if n > charLimit then pyTruncMark rawWarn.1 charLimit else .ok rawWarn.1
    .ok (blockHead ++ "Full source content limited to " ++ toString maxTok ++
      " tokens: " ++ pyStr rawFinal ++ "\n\n", rawWarn.2)
  else
    .ok (blockHead, [])

/-- The formatting loop over all deduplicated sources, concatenating block
texts and collecting printed warnings in order (warnings are reported only
on the successful path; on an exception Python would already have printed
earlier ones, which no claim depends on). -/
def formatBlocks : List PyVal → Int → Bool → Except PyErr (String × List String)
  | [], _, _ => .ok ("", [])
  | s :: rest, maxTok, irc => do
      let bw ← renderSource s maxTok irc
      let tws ← formatBlocks rest maxTok irc
      .ok (bw.1 ++ tws.1, bw.2 ++ tws.2)

/-- `deduplicate_and_format_sources(search_response, max_tokens_per_source,
include_raw_content=True)`: normalize the input shape, deduplicate by URL
keeping first occurrences, render each unique source, prepend the
`"Sources:\n\n"` header and strip the result. Returns the formatted string
together with the warning lines printed. -/
def deduplicate_and_format_sources (search_response : PyVal) (max_tokens_per_source : Int)
    (include_raw_content : Bool := true) : Except PyErr (String × List String) := do
  let sources ← getSourcesList search_response
  let uniq ← dedupLoop sources []
  let tw ← formatBlocks (uniq.map Prod.snd) max_tokens_per_source include_raw_content
  .ok (pyStrip ("Sources:\n\n" ++ tw.1), tw.2)

/-- The generator expression inside `format_sources`: the bullet line
`f"* {source['title']} : {source['url']}"` for one result. -/
def bulletLine (s : PyVal) : Except PyErr String := do
  let t ← pySubscript s "title"
  let u ← pySubscript s "url"
  .ok ("* " ++ pyStr t ++ " : " ++ pyStr u)

/-- `format_sources(search_results)`: one bullet line per result, joined by
newlines, with no deduplication and no defaulting of missing fields. -/
def format_sources (search_results : PyVal) : Except PyErr String := do
  let results ← pySubscript search_results "results"
  let items ← pyIter results
  let lines ← mapME bulletLine items
  .ok (String.intercalate "\n" lines)

/-- The `'url'` value of a source, when the source is a dict carrying one. -/
def srcUrl : PyVal → Option PyVal
  | .dict kvs => dlookup kvs "url"
  | _ => Option.none

/-- A source the deduplication loop accepts without raising: a dict whose
`'url'` value is present and hashable. -/
def goodSrc (s : PyVal) : Bool :=
  match srcUrl s with
  | Option.some u => pyHashable u
  | Option.none => false

/-- Modelled from the spec's words, for comparison with the code's
deduplication: keep, in iteration order, only the first source seen for each
`'url'` value; `seen` accumulates the urls already kept. -/
def specFirstOccByUrl : List PyVal → List PyVal → List PyVal
  | [], _ => []
  | s :: rest, seen =>
      match srcUrl s with
      | Option.some u =>
          if seen.any (fun x => pyValBEq x u) then specFirstOccByUrl rest seen
          else s :: specFirstOccByUrl rest (u :: seen)
      | Option.none => specFirstOccByUrl rest seen

/-- The final wrapping applied by `deduplicate_and_format_sources` to the
concatenated blocks: prepend the header, strip, keep the warnings. -/
def finalizeOutput (tw : String × List String) : String × List String :=
  (pyStrip ("Sources:\n\n" ++ tw.1), tw.2)

/-- Replace the value at one key of an association list, leaving all other
entries untouched. -/
def mapValAt (tgt : String) (g : PyVal → PyVal) (kvs : List (String × PyVal)) :
    List (String × PyVal) :=
  kvs.map fun kv => if kv.1 = tgt then (kv.1, g kv.2) else kv

/-- Replace a source dict's `'raw_content'` value by `None`, leaving every
other field untouched; identity on non-dicts. -/
def eraseSource : PyVal → PyVal
  | .dict kvs => .dict (mapValAt "raw_content" (fun _ => PyVal.none) kvs)
  | v => v

/-- Erase `raw_content` in the sources under a response's `'results'` key
when that value is a list of sources. -/
def eraseResultsVal : PyVal → PyVal
  | .list es => .list (es.map eraseSource)
  | v => v

/-- Erase `raw_content` at the source positions of one element of a list
input to `deduplicate_and_format_sources`. -/
def eraseResp : PyVal → PyVal
  | .dict kvs => .dict (mapValAt "results" eraseResultsVal kvs)
  | .list es => .list (es.map eraseSource)
  | v => v

/-- Erase `raw_content` at every source position of an input to
`deduplicate_and_format_sources`: two inputs with the same erasure differ at
most in the `raw_content` values of their results. -/
def eraseInput : PyVal → PyVal
  | .list es => .list (es.map eraseResp)
  | .dict kvs => .dict (mapValAt "results" eraseResultsVal kvs)
  | v => v

/-- Shape test: is the value a Python dict. -/
def isPyDict : PyVal → Bool
  | .dict _ => true
  | _ => false

/-- Shape test: is the value a Python list. -/
def isPyList : PyVal → Bool
  | .list _ => true
  | _ => false

/-- On hashable values (the only values Python admits as dict keys) the
equality test decides propositional equality. -/
theorem pyValBEq_iff_of_hashable (u v : PyVal) (hu : pyHashable u = true) :
    pyValBEq v u = true ↔ v = u := by
  cases u <;> cases v <;> simp [pyHashable, pyValBEq] at hu ⊢


/-- C5: with provider tag "searxng" and `searxng_url` absent (`None`) or
empty, `web_search` raises the configuration `ValueError` before any HTTP
request is attempted (the `error` outcome constructs no client and performs
no provider call); with a non-empty `searxng_url` it constructs a
`SearxngClient` with that URL and delegates the search to it with the same
`query`, `max_results` and `include_raw_content`. -/
theorem claim_C5_searxng_config (q u : String) (irc : Bool) (mr : Int) (hu : u ≠ "") :
    web_search q "searxng" Option.none irc mr =
        .error (.valueError "searxng_url must be provided when using SearXNG") ∧
    web_search q "searxng" (Option.some "") irc mr =
        .error (.valueError "searxng_url must be provided when using SearXNG") ∧
    web_search q "searxng" (Option.some u) irc mr =
        .searxngSearch (SearxngClient.init u) q mr irc := by
  refine ⟨rfl, rfl, ?_⟩
  simp [web_search, hu]

/-- Witness for C5 at a concrete URL (with a trailing slash, stripped by the
constructor) and at the two degenerate configurations. -/
theorem claim_C5_searxng_config_witness :
    web_search "q" "searxng" Option.none true 3 =
        .error (.valueError "searxng_url must be provided when using SearXNG") ∧
    web_search "q" "searxng" (Option.some "") true 3 =
        .error (.valueError "searxng_url must be provided when using SearXNG") ∧
    web_search "q" "searxng" (Option.some "http://host/") true 3 =
        .searxngSearch ⟨"http://host"⟩ "q" 3 true := by
  have h := claim_C5_searxng_config "q" "http://host/" true 3 (by decide)
  exact ⟨h.1, h.2.1, h.2.2.trans (by rfl)⟩

/-- C6: any provider tag other than "tavily" or "searxng" makes `web_search`
fail immediately with the unsupported-provider `ValueError`, whose message
names the offending provider value (it occurs verbatim inside the message). -/
theorem claim_C6_unsupported_provider (q p : String) (u : Option String) (irc : Bool)
    (mr : Int) (h1 : p ≠ "tavily") (h2 : p ≠ "searxng") :
    web_search q p u irc mr =
      .error (.valueError ("Unsupported search provider: " ++ p ++
        ". Must be either 'tavily' or 'searxng'.")) ∧
    ∃ a b, "Unsupported search provider: " ++ p ++
        ". Must be either 'tavily' or 'searxng'." = a ++ p ++ b := by
  refine ⟨by simp [web_search, h1, h2], ⟨"Unsupported search provider: ",
    ". Must be either 'tavily' or 'searxng'.", rfl⟩⟩

/-- Witness for C6 at the concrete provider tag "google". -/
theorem claim_C6_unsupported_provider_witness :
    web_search "q" "google" Option.none true 3 =
      .error (.valueError "Unsupported search provider: google. Must be either 'tavily' or 'searxng'.") := by
  have h := (claim_C6_unsupported_provider "q" "google" Option.none true 3
    (by decide) (by decide)).1
  exact h.trans (by rfl)

/-- C4 (amended): an input that is neither a dict nor a list fails
immediately with the input-shape `ValueError` and produces no partial
output; but a dict lacking the `'results'` key — which also matches none of
the three accepted shapes — fails with a `KeyError` instead (see the
counterexample), so the input-shape error covers only non-dict/non-list
inputs. -/
theorem claim_C4_shape_error (v : PyVal) (m : Int) (irc : Bool)
    (hd : isPyDict v = false) (hl : isPyList v = false) :
    deduplicate_and_format_sources v m irc =
      .error (.valueError "Input must be either a dict with 'results' or a list of search results") := by
  cases v <;> simp [isPyDict, isPyList] at hd hl <;> rfl

/-- Witness for C4's amended theorem at a concrete string input. -/
theorem claim_C4_shape_error_witness :
    isPyDict (.str "zzz") = false ∧ isPyList (.str "zzz") = false ∧
    deduplicate_and_format_sources (.str "zzz") 5 true =
      .error (.valueError "Input must be either a dict with 'results' or a list of search results") :=
  ⟨rfl, rfl, claim_C4_shape_error (.str "zzz") 5 true rfl rfl⟩

/-- Counterexample to C4 as stated: the dict `{"foo": 1}` matches none of
the three accepted shapes, yet the function fails with `KeyError('results')`
— not with the input-shape `ValueError`. -/
theorem claim_C4_counterexample :
    deduplicate_and_format_sources (.dict [("foo", .int 1)]) 5 true =
      .error (.keyError "results") ∧
    PyErr.keyError "results" ≠
      PyErr.valueError "Input must be either a dict with 'results' or a list of search results" :=
  ⟨rfl, by decide⟩

/-- The bullet-line loop of `format_sources` on results whose `'title'` and
`'url'` fields are present produces one line per result, in order. -/
theorem mapME_bullet_lines (kvss : List (List (String × PyVal)))
    (h : ∀ kvs ∈ kvss, (dlookup kvs "title").isSome ∧ (dlookup kvs "url").isSome) :
    mapME bulletLine (kvss.map PyVal.dict) =
      .ok (kvss.map fun kvs =>
        "* " ++ pyStr ((dlookup kvs "title").getD PyVal.none) ++ " : " ++
          pyStr ((dlookup kvs "url").getD PyVal.none)) := by
  induction kvss with
  | nil => rfl
  | cons kvs rest ih =>
      obtain ⟨ht, hu⟩ := h kvs (List.mem_cons_self kvs rest)
      obtain ⟨t, ht⟩ := Option.isSome_iff_exists.mp ht
      obtain ⟨u, hu⟩ := Option.isSome_iff_exists.mp hu
      have hrest := ih (fun x hx => h x (List.mem_cons_of_mem kvs hx))
      have hb : bulletLine (.dict kvs) = .ok ("* " ++ pyStr t ++ " : " ++ pyStr u) := by
        simp [bulletLine, pySubscript, ht, hu, bind, Except.bind]
      simp [mapME, hb, hrest, bind, Except.bind, ht, hu]

/-- C9: on a dict input with a `'results'` key whose results all carry
`'title'` and `'url'`, `format_sources` returns one line per result, in
input order, with no deduplication, each line a bullet marker followed by
the result's title and URL; on the scenario input it returns exactly
`"* T : http://u"`; and on a dict without the `'results'` key it fails with
`KeyError('results')` rather than defaulting. -/
theorem claim_C9_format_sources (kvss : List (List (String × PyVal)))
    (h : ∀ kvs ∈ kvss, (dlookup kvs "title").isSome ∧ (dlookup kvs "url").isSome) :
    format_sources (.dict [("results", .list (kvss.map PyVal.dict))]) =
      .ok (String.intercalate "\n" (kvss.map fun kvs =>
        "* " ++ pyStr ((dlookup kvs "title").getD PyVal.none) ++ " : " ++
          pyStr ((dlookup kvs "url").getD PyVal.none))) ∧
    format_sources (.dict [("results",
        .list [.dict [("title", .str "T"), ("url", .str "http://u")]])]) =
      .ok "* T : http://u" ∧
    ∀ kvs, dlookup kvs "results" = Option.none →
      format_sources (.dict kvs) = .error (.keyError "results") := by
  refine ⟨?_, rfl, ?_⟩
  · have hm := mapME_bullet_lines kvss h
    simp [format_sources, pySubscript, dlookup, pyIter, bind, Except.bind, hm]
  · intro kvs hk
    simp [format_sources, pySubscript, hk, bind, Except.bind]

/-- Witness for C9 at a concrete two-result input (order preserved, no
deduplication of distinct URLs) and for the strict failure case. -/
theorem claim_C9_format_sources_witness :
    format_sources (.dict [("results", .list [
        .dict [("title", .str "T"), ("url", .str "http://u")],
        .dict [("title", .str "S"), ("url", .str "http://v")]])]) =
      .ok "* T : http://u\n* S : http://v" := by
  have h := (claim_C9_format_sources
    [[("title", .str "T"), ("url", .str "http://u")],
     [("title", .str "S"), ("url", .str "http://v")]]
    (by intro kvs hk; fin_cases hk <;> exact ⟨rfl, rfl⟩)).1
  exact h.trans (by rfl)

/-- C2: for every source rendered with `include_raw_content` true (fields as
strings, `raw_content` the string `r`): when `r` is longer than
`max_tokens_per_source * 4` characters the rendered block carries exactly
the first `max_tokens_per_source * 4` characters of `r` followed by the
marker `"... [truncated]"`, and otherwise `r` unmodified with no marker;
and on the scenario input with `max_tokens_per_source = 1` the whole
function renders `"hell"` plus the marker. -/
theorem claim_C2_truncation (t u c r : String) (m : Int) (hm : 0 ≤ m) :
    renderSource (.dict [("title", .str t), ("url", .str u), ("content", .str c),
        ("raw_content", .str r)]) m true =
      .ok ("Source " ++ t ++ ":\n===\nURL: " ++ u ++
        "\n===\nMost relevant content from source: " ++ c ++
        "\n===\nFull source content limited to " ++ toString m ++ " tokens: " ++
        (if m.toNat * 4 < r.length then String.mk (r.data.take (m.toNat * 4)) ++ "... [truncated]"
         else r) ++ "\n\n", []) ∧
    deduplicate_and_format_sources (.dict [("results", .list [.dict [("title", .str "A"),
        ("url", .str "http://x"), ("content", .str "c1"),
        ("raw_content", .str "hello world")]])]) 1 true =
      .ok ("Sources:\n\nSource A:\n===\nURL: http://x\n===\nMost relevant content from source: c1\n===\nFull source content limited to 1 tokens: hell... [truncated]", []) := by
  constructor
  · have hneg : ¬(m * 4 < 0) := by omega
    have h2 : (m * 4).toNat = m.toNat * 4 := by omega
    by_cases hbig : ((r.length : Int) > m * 4)
    · have h3 : m.toNat * 4 < r.length := by omega
      simp [renderSource, pySubscript, dlookup, pyGetD, pyLen, pyStr, pyTruncMark,
        pyTakeStr, bind, Except.bind, hbig, hneg, h2, h3, String.append_assoc]
    · have h3 : ¬(m.toNat * 4 < r.length) := by omega
      simp [renderSource, pySubscript, dlookup, pyGetD, pyLen, pyStr, bind,
        Except.bind, hbig, h3, String.append_assoc]
  · rfl

/-- Witness for C2 at the spec's scenario values: `max_tokens_per_source=1`,
`raw_content="hello world"` renders `"hell... [truncated]"`. -/
theorem claim_C2_truncation_witness :
    (0 : Int) ≤ 1 ∧
    renderSource (.dict [("title", .str "A"), ("url", .str "http://x"), ("content", .str "c1"),
        ("raw_content", .str "hello world")]) 1 true =
      .ok ("Source A:\n===\nURL: http://x\n===\nMost relevant content from source: c1\n===\nFull source content limited to 1 tokens: hell... [truncated]\n\n", []) := by
  have h := (claim_C2_truncation "A" "http://x" "c1" "hello world" 1 (by decide)).1
  exact ⟨by decide, h.trans (by rfl)⟩

/-- C8: a source whose `raw_content` is present with value `None` (the
spec's "absent (null)") is still rendered and the function does not fail:
the empty string is substituted (the rendered block ends `"tokens: "` with
nothing after it before the block separator) and the diagnostic notice
naming the source's url is printed. -/
theorem claim_C8_none_raw_content (t u c : String) (m : Int) (hm : 0 ≤ m) :
    deduplicate_and_format_sources (.dict [("results", .list [.dict [("title", .str t),
        ("url", .str u), ("content", .str c), ("raw_content", PyVal.none)]])]) m true =
      .ok (pyStrip ("Sources:\n\n" ++ "Source " ++ t ++ ":\n===\nURL: " ++ u ++
          "\n===\nMost relevant content from source: " ++ c ++
          "\n===\nFull source content limited to " ++ toString m ++ " tokens: \n\n"),
        ["Warning: No raw_content found for source " ++ u]) := by
  have hcond : ¬((0 : Int) > m * 4) := by omega
  simp [deduplicate_and_format_sources, getSourcesList, dlookup, pyIter, dedupLoop,
    pySubscript, pyHashable, formatBlocks, renderSource, pyGetD, pyLen, pyStr,
    bind, Except.bind, hcond, String.append_assoc]
  congr 1

/-- Witness for C8 at concrete field values and `max_tokens_per_source=2`. -/
theorem claim_C8_none_raw_content_witness :
    deduplicate_and_format_sources (.dict [("results", .list [.dict [("title", .str "A"),
        ("url", .str "u"), ("content", .str "c"), ("raw_content", PyVal.none)]])]) 2 true =
      .ok ("Sources:\n\nSource A:\n===\nURL: u\n===\nMost relevant content from source: c\n===\nFull source content limited to 2 tokens:",
        ["Warning: No raw_content found for source u"]) := by
  have h := claim_C8_none_raw_content "A" "u" "c" 2 (by decide)
  exact h.trans (by rfl)

/-- C3 (amended): the deduplicate path does not default absent
`'title'`/`'url'`/`'content'` fields to the empty string; it fails. A source
without `'url'` raises `KeyError('url')` in the deduplication loop; with
`'url'` present but `'title'` absent it raises `KeyError('title')` in the
formatting loop; with `'url'` and `'title'` present but `'content'` absent
it raises `KeyError('content')`. Only `'raw_content'` is defaulted. -/
theorem claim_C3_no_field_defaulting (kvs : List (String × PyVal)) (m : Int) (irc : Bool) :
    (dlookup kvs "url" = Option.none →
      deduplicate_and_format_sources (.dict [("results", .list [.dict kvs])]) m irc =
        .error (.keyError "url")) ∧
    (∀ u, dlookup kvs "url" = Option.some u → pyHashable u = true →
      dlookup kvs "title" = Option.none →
      deduplicate_and_format_sources (.dict [("results", .list [.dict kvs])]) m irc =
        .error (.keyError "title")) ∧
    (∀ u t, dlookup kvs "url" = Option.some u → pyHashable u = true →
      dlookup kvs "title" = Option.some t →
      dlookup kvs "content" = Option.none →
      deduplicate_and_format_sources (.dict [("results", .list [.dict kvs])]) m irc =
        .error (.keyError "content")) := by
  refine ⟨?_, ?_, ?_⟩
  · intro h
    simp [deduplicate_and_format_sources, getSourcesList, dlookup, pyIter, dedupLoop,
      pySubscript, h, bind, Except.bind]
  · intro u hu hh ht
    simp [deduplicate_and_format_sources, getSourcesList, dlookup, pyIter, dedupLoop,
      pySubscript, hu, hh, ht, formatBlocks, renderSource, bind, Except.bind]
  · intro u t hu hh ht hc
    simp [deduplicate_and_format_sources, getSourcesList, dlookup, pyIter, dedupLoop,
      pySubscript, hu, hh, ht, hc, formatBlocks, renderSource, bind, Except.bind]

/-- Witness for C3's amended theorem: each missing field at a concrete
input produces the corresponding `KeyError`. -/
theorem claim_C3_no_field_defaulting_witness :
    deduplicate_and_format_sources (.dict [("results", .list [.dict [("title", .str "A")]])]) 5 true =
      .error (.keyError "url") ∧
    deduplicate_and_format_sources (.dict [("results", .list [.dict [("url", .str "u")]])]) 4 false =
      .error (.keyError "title") ∧
    deduplicate_and_format_sources (.dict [("results",
        .list [.dict [("url", .str "u"), ("title", .str "A")]])]) 3 true =
      .error (.keyError "content") :=
  ⟨(claim_C3_no_field_defaulting [("title", .str "A")] 5 true).1 rfl,
   (claim_C3_no_field_defaulting [("url", .str "u")] 4 false).2.1 (.str "u") rfl rfl rfl,
   (claim_C3_no_field_defaulting [("url", .str "u"), ("title", .str "A")] 3 true).2.2
     (.str "u") (.str "A") rfl rfl rfl rfl⟩

/-- Counterexample to C3 as stated: on `{"results":[{"url":"u"}]}` the
absent `'title'` is not defaulted — the function raises `KeyError('title')`
and returns no formatted string. -/
theorem claim_C3_counterexample :
    deduplicate_and_format_sources (.dict [("results", .list [.dict [("url", .str "u")]])]) 5 true =
      .error (.keyError "title") := rfl

/-- The translation loop of `SearxngClient.search` on a list of provider
result dicts: each maps to the four-field normalized entry with defaulted
strings and `raw_content = None`. -/
theorem mapME_searxngMapResult (kvss : List (List (String × PyVal))) :
    mapME searxngMapResult (kvss.map PyVal.dict) =
      .ok (kvss.map fun kvs => PyVal.dict [("title", (dlookup kvs "title").getD (.str "")),
        ("url", (dlookup kvs "url").getD (.str "")),
        ("content", (dlookup kvs "content").getD (.str "")),
        ("raw_content", PyVal.none)]) := by
  induction kvss with
  | nil => rfl
  | cons kvs rest ih => simp [mapME, searxngMapResult, pyGetD, ih, bind, Except.bind]

/-- C7: on a well-formed JSON body whose `'results'` array holds at least
`max_results` result dicts, `SearxngClient.search` returns
`{"results": [...]}` with exactly the first `max_results` entries, each
carrying `title`/`url`/`content` from the provider result (defaulting to
the empty string when absent) and `raw_content` fixed to `None`. -/
theorem claim_C7_searxng_normalization (c : SearxngClient) (q : String) (irc : Bool)
    (extra : List (String × PyVal)) (kvss : List (List (String × PyVal))) (m : Int)
    (hm : 0 ≤ m) (hres : dlookup extra "results" = Option.some (.list (kvss.map PyVal.dict)))
    (hlen : m.toNat ≤ kvss.length) :
    SearxngClient.search c q m irc (.dict extra) =
      .ok (.dict [("results", .list ((kvss.take m.toNat).map fun kvs =>
        PyVal.dict [("title", (dlookup kvs "title").getD (.str "")),
          ("url", (dlookup kvs "url").getD (.str "")),
          ("content", (dlookup kvs "content").getD (.str "")),
          ("raw_content", PyVal.none)]))]) ∧
    ((kvss.take m.toNat).map fun kvs =>
        PyVal.dict [("title", (dlookup kvs "title").getD (.str "")),
          ("url", (dlookup kvs "url").getD (.str "")),
          ("content", (dlookup kvs "content").getD (.str "")),
          ("raw_content", PyVal.none)]).length = m.toNat ∧
    ∀ o ∈ ((kvss.take m.toNat).map fun kvs =>
        PyVal.dict [("title", (dlookup kvs "title").getD (.str "")),
          ("url", (dlookup kvs "url").getD (.str "")),
          ("content", (dlookup kvs "content").getD (.str "")),
          ("raw_content", PyVal.none)]),
      pySubscript o "raw_content" = .ok PyVal.none := by
  have hneg : ¬(m < 0) := by omega
  refine ⟨?_, ?_, ?_⟩
  · have hmap := mapME_searxngMapResult (kvss.take m.toNat)
    rw [List.map_take] at hmap
    simp [SearxngClient.search, pyGetD, hres, pySliceVal, pySliceList, hneg,
      pyIter, bind, Except.bind, hmap, List.map_take]
  · simp [List.length_take]
    omega
  · intro o ho
    obtain ⟨kvs, _, rfl⟩ := List.mem_map.mp ho
    simp [pySubscript, dlookup]

/-- Witness for C7: a two-result body truncated to `max_results = 1`, with
the missing `content` defaulted and `raw_content` set to `None`. -/
theorem claim_C7_searxng_normalization_witness :
    SearxngClient.search (SearxngClient.init "http://h") "q" 1 true
        (.dict [("results", .list [
          .dict [("title", .str "T1"), ("url", .str "U1")],
          .dict [("title", .str "T2"), ("url", .str "U2"), ("content", .str "C2")]])]) =
      .ok (.dict [("results", .list [.dict [("title", .str "T1"), ("url", .str "U1"),
        ("content", .str ""), ("raw_content", PyVal.none)]])]) := by
  have h := (claim_C7_searxng_normalization (SearxngClient.init "http://h") "q" true
    [("results", .list [
      .dict [("title", .str "T1"), ("url", .str "U1")],
      .dict [("title", .str "T2"), ("url", .str "U2"), ("content", .str "C2")]])]
    [[("title", .str "T1"), ("url", .str "U1")],
     [("title", .str "T2"), ("url", .str "U2"), ("content", .str "C2")]]
    1 (by decide) rfl (by decide)).1
  exact h.trans (by rfl)

/-- Unpacking of `goodSrc`: a good source is a dict whose `'url'` value is
present and hashable, and subscripting it with `'url'` succeeds. -/
theorem goodSrc_elim (s : PyVal) (h : goodSrc s = true) :
    ∃ u, srcUrl s = Option.some u ∧ pyHashable u = true ∧ pySubscript s "url" = .ok u := by
  unfold goodSrc at h
  cases hu : srcUrl s with
  | none => rw [hu] at h; cases h
  | some u =>
      rw [hu] at h
      refine ⟨u, rfl, h, ?_⟩
      cases s <;> simp [srcUrl] at hu
      simp [pySubscript, hu]

/-- The deduplication loop succeeds on good sources and keeps exactly the
first occurrence per url, in iteration order, appended after the
accumulator's entries (`seen` mirrors the accumulator's key set). -/
theorem dedupLoop_spec (srcs : List PyVal) :
    ∀ (acc : List (PyVal × PyVal)) (seen : List PyVal),
      (∀ s ∈ srcs, goodSrc s = true) →
      (∀ w, seen.any (fun x => pyValBEq x w) = acc.any (fun kv => pyValBEq kv.1 w)) →
      ∃ r, dedupLoop srcs acc = .ok r ∧
        r.map Prod.snd = acc.map Prod.snd ++ specFirstOccByUrl srcs seen := by
  induction srcs with
  | nil =>
      intro acc seen _ _
      exact ⟨acc, rfl, by simp [specFirstOccByUrl]⟩
  | cons s rest ih =>
      intro acc seen hg hs
      obtain ⟨u, hu, hh, hsub⟩ := goodSrc_elim s (hg s (List.mem_cons_self s rest))
      have hgrest : ∀ x ∈ rest, goodSrc x = true :=
        fun x hx => hg x (List.mem_cons_of_mem s hx)
      by_cases hmem : acc.any (fun kv => pyValBEq kv.1 u) = true
      · obtain ⟨r, hr, hmap⟩ := ih acc seen hgrest hs
        refine ⟨r, ?_, ?_⟩
        · simp [dedupLoop, hsub, hh, hmem, hr, bind, Except.bind]
        · rw [hmap]
          simp [specFirstOccByUrl, hu, hs u, hmem]
      · have hmem' : acc.any (fun kv => pyValBEq kv.1 u) = false :=
          Bool.not_eq_true _ ▸ eq_false_of_ne_true hmem
        have hs' : ∀ w, (u :: seen).any (fun x => pyValBEq x w) =
            (acc ++ [(u, s)]).any (fun kv => pyValBEq kv.1 w) := by
          intro w
          simp [List.any_cons, List.any_append, hs w, Bool.or_comm]
        obtain ⟨r, hr, hmap⟩ := ih (acc ++ [(u, s)]) (u :: seen) hgrest hs'
        refine ⟨r, ?_, ?_⟩
        · simp [dedupLoop, hsub, hh, hmem', hr, bind, Except.bind]
        · rw [hmap]
          simp [specFirstOccByUrl, hu, hs u, hmem']

/-- The spec-side deduplication keeps a sublist of its input: kept sources
appear in first-seen order. -/
theorem specFirstOccByUrl_sublist (srcs : List PyVal) :
    ∀ seen, (specFirstOccByUrl srcs seen).Sublist srcs := by
  induction srcs with
  | nil => intro seen; simp [specFirstOccByUrl]
  | cons s rest ih =>
      intro seen
      rw [specFirstOccByUrl]
      cases hu : srcUrl s with
      | none => exact (ih seen).cons s
      | some u =>
          by_cases hm : seen.any (fun x => pyValBEq x u) = true
          · simp only [hm, if_true]
            exact (ih seen).cons s
          · simp only [eq_false_of_ne_true hm, if_false]
            exact (ih (u :: seen)).cons₂ s

/-- The spec-side deduplication emits pairwise-distinct urls (on good
sources), none of which was already seen. -/
theorem specFirstOccByUrl_nodup (srcs : List PyVal) :
    ∀ seen, (∀ s ∈ srcs, goodSrc s = true) →
      ((specFirstOccByUrl srcs seen).filterMap srcUrl).Nodup ∧
      ∀ w ∈ (specFirstOccByUrl srcs seen).filterMap srcUrl,
        seen.any (fun x => pyValBEq x w) = false := by
  induction srcs with
  | nil => intro seen _; simp [specFirstOccByUrl]
  | cons s rest ih =>
      intro seen hg
      obtain ⟨u, hu, hh, _⟩ := goodSrc_elim s (hg s (List.mem_cons_self s rest))
      have hgrest : ∀ x ∈ rest, goodSrc x = true :=
        fun x hx => hg x (List.mem_cons_of_mem s hx)
      by_cases hm : seen.any (fun x => pyValBEq x u) = true
      · have hspec : specFirstOccByUrl (s :: rest) seen = specFirstOccByUrl rest seen := by
          rw [specFirstOccByUrl, hu]; simp [hm]
        rw [hspec]
        exact ih seen hgrest
      · have hspec : specFirstOccByUrl (s :: rest) seen =
            s :: specFirstOccByUrl rest (u :: seen) := by
          rw [specFirstOccByUrl, hu]; simp [hm]
        rw [hspec]
        obtain ⟨hnd, hinv⟩ := ih (u :: seen) hgrest
        have hrefl : pyValBEq u u = true := (pyValBEq_iff_of_hashable u u hh).mpr rfl
        have hmem : u ∉ (specFirstOccByUrl rest (u :: seen)).filterMap srcUrl := by
          intro hin
          have h2 := hinv u hin
          simp [List.any_cons, hrefl] at h2
        have hfm : List.filterMap srcUrl (s :: specFirstOccByUrl rest (u :: seen)) =
            u :: (specFirstOccByUrl rest (u :: seen)).filterMap srcUrl := by
          rw [List.filterMap_cons, hu]
        rw [hfm]
        constructor
        · exact List.Nodup.cons hmem hnd
        · intro w hw
          rcases List.mem_cons.mp hw with hwu | hwtail
          · rw [hwu]; exact eq_false_of_ne_true hm
          · have h3 := hinv w hwtail
            simp only [List.any_cons, Bool.or_eq_false_iff] at h3
            exact h3.2

/-- Flattening a list of dict responses, each `{'results': [...]}`,
concatenates their results lists in order. -/
theorem mapME_flattenResp_respList (rss : List (List PyVal)) :
    mapME flattenResp (rss.map fun rs => PyVal.dict [("results", PyVal.list rs)]) =
      .ok rss := by
  induction rss with
  | nil => rfl
  | cons rs rest ih => simp [mapME, flattenResp, dlookup, pyIter, ih, bind, Except.bind]

/-- Flattening a list of dict responses, each `{'results': [...]}`,
concatenates their results lists in order. -/
theorem getSourcesList_respList (rss : List (List PyVal)) :
    getSourcesList (.list (rss.map fun rs => PyVal.dict [("results", PyVal.list rs)])) =
      .ok rss.flatten := by
  simp [getSourcesList, mapME_flattenResp_respList, Except.map]

/-- C1 (amended): for a dict input with `'results'` and for a list of dicts
each flattened by concatenating their `'results'` (sources being dicts with
hashable urls), the function renders exactly the first occurrence per url,
in first-seen order: its output is the formatting of `specFirstOccByUrl`,
which is an order-preserving sublist of the flattened input with pairwise
distinct urls. The claim's third accepted shape — a raw list of result
dicts — instead fails with a `TypeError` (see the counterexample), because
`sources_list.extend(response)` extends with a dict's keys. -/
theorem claim_C1_first_occurrence (srcs : List PyVal) (rss : List (List PyVal))
    (m : Int) (irc : Bool)
    (hg1 : ∀ s ∈ srcs, goodSrc s = true)
    (hg2 : ∀ s ∈ rss.flatten, goodSrc s = true) :
    deduplicate_and_format_sources (.dict [("results", .list srcs)]) m irc =
      (formatBlocks (specFirstOccByUrl srcs []) m irc).map finalizeOutput ∧
    deduplicate_and_format_sources
        (.list (rss.map fun rs => PyVal.dict [("results", PyVal.list rs)])) m irc =
      (formatBlocks (specFirstOccByUrl rss.flatten []) m irc).map finalizeOutput ∧
    (specFirstOccByUrl srcs []).Sublist srcs ∧
    ((specFirstOccByUrl srcs []).filterMap srcUrl).Nodup := by
  have main : ∀ flat : List PyVal, (∀ s ∈ flat, goodSrc s = true) →
      ∀ v, getSourcesList v = .ok flat →
      deduplicate_and_format_sources v m irc =
        (formatBlocks (specFirstOccByUrl flat []) m irc).map finalizeOutput := by
    intro flat hgf v hv
    obtain ⟨r, hr, hmap⟩ := dedupLoop_spec flat [] [] hgf (fun w => rfl)
    simp only [List.map_nil, List.nil_append] at hmap
    simp only [deduplicate_and_format_sources, hv, hr, hmap, bind, Except.bind]
    cases hfb : formatBlocks (specFirstOccByUrl flat []) m irc with
    | error e => simp [Except.map]
    | ok tw => simp [Except.map, finalizeOutput]
  refine ⟨?_, ?_, specFirstOccByUrl_sublist srcs [],
    (specFirstOccByUrl_nodup srcs [] hg1).1⟩
  · exact main srcs hg1 _ (by simp [getSourcesList, dlookup, pyIter])
  · exact main rss.flatten hg2 _ (getSourcesList_respList rss)

/-- Witness for C1's amended theorem: three sources, the second sharing the
first one's url, in both accepted shapes; only the first occurrence and the
distinct-url source are rendered, in first-seen order. -/
theorem claim_C1_first_occurrence_witness :
    deduplicate_and_format_sources (.dict [("results", .list [
        .dict [("title", .str "A"), ("url", .str "u"), ("content", .str "ca")],
        .dict [("title", .str "B"), ("url", .str "u"), ("content", .str "cb")],
        .dict [("title", .str "C"), ("url", .str "v"), ("content", .str "cc")]])]) 7 false =
      .ok ("Sources:\n\nSource A:\n===\nURL: u\n===\nMost relevant content from source: ca\n===\nSource C:\n===\nURL: v\n===\nMost relevant content from source: cc\n===", []) ∧
    deduplicate_and_format_sources (.list [
        .dict [("results", .list [.dict [("title", .str "A"), ("url", .str "u"), ("content", .str "ca")]])],
        .dict [("results", .list [
          .dict [("title", .str "B"), ("url", .str "u"), ("content", .str "cb")],
          .dict [("title", .str "C"), ("url", .str "v"), ("content", .str "cc")]])]]) 7 false =
      .ok ("Sources:\n\nSource A:\n===\nURL: u\n===\nMost relevant content from source: ca\n===\nSource C:\n===\nURL: v\n===\nMost relevant content from source: cc\n===", []) := by
  have h := claim_C1_first_occurrence
    [.dict [("title", .str "A"), ("url", .str "u"), ("content", .str "ca")],
     .dict [("title", .str "B"), ("url", .str "u"), ("content", .str "cb")],
     .dict [("title", .str "C"), ("url", .str "v"), ("content", .str "cc")]]
    [[.dict [("title", .str "A"), ("url", .str "u"), ("content", .str "ca")]],
     [.dict [("title", .str "B"), ("url", .str "u"), ("content", .str "cb")],
      .dict [("title", .str "C"), ("url", .str "v"), ("content", .str "cc")]]]
    7 false (by decide) (by decide)
  exact ⟨h.1.trans (by rfl), h.2.1.trans (by rfl)⟩

/-- Counterexample to C1 as stated: a raw list of two result dicts sharing
a url — one of the claim's accepted shapes — does not render the first
occurrence; flattening extends `sources_list` with the dicts' key strings
and the deduplication loop raises `TypeError` subscripting a string. -/
theorem claim_C1_counterexample :
    deduplicate_and_format_sources (.list [
      .dict [("title", .str "A"), ("url", .str "u"), ("content", .str "c")],
      .dict [("title", .str "B"), ("url", .str "u"), ("content", .str "d")]]) 5 true =
      .error (.typeError "string indices must be integers") := rfl

/-- Unfolding of `mapValAt` on a cons cell. -/
theorem mapValAt_cons (tgt : String) (g : PyVal → PyVal) (kv : String × PyVal)
    (rest : List (String × PyVal)) :
    mapValAt tgt g (kv :: rest) =
      (if kv.1 = tgt then (kv.1, g kv.2) else kv) :: mapValAt tgt g rest := by
  simp [mapValAt]

/-- Lookup through `mapValAt`: the targeted key's value is transformed,
every other key reads unchanged. -/
theorem dlookup_mapValAt (tgt : String) (g : PyVal → PyVal)
    (kvs : List (String × PyVal)) (k : String) :
    dlookup (mapValAt tgt g kvs) k =
      if k = tgt then (dlookup kvs k).map g else dlookup kvs k := by
  induction kvs with
  | nil => by_cases hk : k = tgt <;> simp [mapValAt, dlookup, hk]
  | cons kv rest ih =>
      rw [mapValAt_cons]
      by_cases h1 : kv.1 = tgt
      · by_cases h2 : kv.1 = k
        · have hk : k = tgt := by rw [← h2]; exact h1
          simp [dlookup, h1, h2, hk]
        · have hk : ¬ k = tgt := fun hh => h2 (h1.trans hh.symm)
          rw [if_pos h1]
          simp [dlookup, h2, hk, ih]
      · by_cases h2 : kv.1 = k
        · have hk : ¬ k = tgt := fun hh => h1 (h2.trans hh)
          simp [dlookup, h1, h2, hk]
        · simp [dlookup, h1, h2, ih]

/-- Subscripting an erased source at any key other than `'raw_content'`
reads the original value. -/
theorem pySubscript_eraseSource (s : PyVal) (k : String) (hk : ¬ k = "raw_content") :
    pySubscript (eraseSource s) k = pySubscript s k := by
  cases s <;> simp [eraseSource, pySubscript, dlookup_mapValAt, hk]

/-- Erasure is the identity on string values. -/
theorem eraseSource_str (s : String) : eraseSource (PyVal.str s) = PyVal.str s := rfl

/-- Erasure is the identity on lists of one-character strings. -/
theorem map_eraseSource_chars (l : List Char) :
    (l.map fun c => PyVal.str (String.singleton c)).map eraseSource =
      l.map fun c => PyVal.str (String.singleton c) := by
  simp [List.map_map, Function.comp, eraseSource_str]

/-- Erasure is the identity on a dict's key strings. -/
theorem map_eraseSource_keys (kvs : List (String × PyVal)) :
    (kvs.map fun kv => PyVal.str kv.1).map eraseSource =
      kvs.map fun kv => PyVal.str kv.1 := by
  simp [List.map_map, Function.comp, eraseSource_str]

/-- `mapValAt` preserves a dict's key strings. -/
theorem strKeys_mapValAt (tgt : String) (g : PyVal → PyVal)
    (kvs : List (String × PyVal)) :
    (mapValAt tgt g kvs).map (fun kv => PyVal.str kv.1) =
      kvs.map (fun kv => PyVal.str kv.1) := by
  induction kvs with
  | nil => rfl
  | cons kv rest ih =>
      rw [mapValAt_cons]
      by_cases h : kv.1 = tgt <;> simp [h, ih]

/-- Iterating an erased results value yields the erased sources. -/
theorem pyIter_eraseResultsVal (v : PyVal) :
    pyIter (eraseResultsVal v) = (pyIter v).map (List.map eraseSource) := by
  cases v with
  | list es => simp [eraseResultsVal, pyIter, Except.map]
  | str s => simp [eraseResultsVal, pyIter, Except.map, List.map_map,
      Function.comp, eraseSource_str]
  | dict kvs => simp [eraseResultsVal, pyIter, Except.map, List.map_map,
      Function.comp, eraseSource_str]
  | int n => simp [eraseResultsVal, pyIter, Except.map]
  | none => simp [eraseResultsVal, pyIter, Except.map]

/-- Flattening one erased response yields the erased flattened sources. -/
theorem flattenResp_eraseResp (r : PyVal) :
    flattenResp (eraseResp r) = (flattenResp r).map (List.map eraseSource) := by
  cases r with
  | dict kvs =>
      simp only [eraseResp, flattenResp]
      rw [dlookup_mapValAt]
      simp only [if_pos rfl]
      cases hres : dlookup kvs "results" with
      | some v => simp [Option.map, pyIter_eraseResultsVal]
      | none => simp [Option.map, pyIter, strKeys_mapValAt, eraseSource_str,
          List.map_map, Function.comp, Except.map]
  | list es => simp [eraseResp, flattenResp, pyIter, Except.map]
  | str s => simp [eraseResp, flattenResp, pyIter, Except.map, eraseSource_str,
      List.map_map, Function.comp]
  | int n => simp [eraseResp, flattenResp, pyIter, Except.map]
  | none => simp [eraseResp, flattenResp, pyIter, Except.map]

/-- Flattening erased responses yields the erased flattened source lists. -/
theorem mapME_flattenResp_erase (es : List PyVal) :
    mapME flattenResp (es.map eraseResp) =
      (mapME flattenResp es).map (List.map (List.map eraseSource)) := by
  induction es with
  | nil => rfl
  | cons e rest ih =>
      simp only [List.map_cons, mapME]
      rw [flattenResp_eraseResp, ih]
      cases hf : flattenResp e <;> cases hm : mapME flattenResp rest <;>
        simp [Except.map, bind, Except.bind]

/-- Normalizing an erased input yields the erased source list. -/
theorem getSourcesList_eraseInput (v : PyVal) :
    getSourcesList (eraseInput v) = (getSourcesList v).map (List.map eraseSource) := by
  cases v with
  | dict kvs =>
      simp only [eraseInput, getSourcesList]
      rw [dlookup_mapValAt]
      simp only [if_pos rfl]
      cases hres : dlookup kvs "results" with
      | some v2 => simp [Option.map, pyIter_eraseResultsVal]
      | none => simp [Option.map, Except.map]
  | list es =>
      simp only [eraseInput, getSourcesList]
      rw [mapME_flattenResp_erase]
      cases hm : mapME flattenResp es <;> simp [Except.map, List.map_flatten]
  | str s => simp [eraseInput, getSourcesList, Except.map]
  | int n => simp [eraseInput, getSourcesList, Except.map]
  | none => simp [eraseInput, getSourcesList, Except.map]

/-- The deduplication loop commutes with source erasure: urls and kept
positions are unchanged, kept sources are erased. -/
theorem dedupLoop_erase (srcs : List PyVal) :
    ∀ acc : List (PyVal × PyVal),
      dedupLoop (srcs.map eraseSource) (acc.map fun kv => (kv.1, eraseSource kv.2)) =
        (dedupLoop srcs acc).map (List.map fun kv => (kv.1, eraseSource kv.2)) := by
  induction srcs with
  | nil => intro acc; simp [dedupLoop, Except.map]
  | cons s rest ih =>
      intro acc
      simp only [List.map_cons, dedupLoop]
      rw [pySubscript_eraseSource s "url" (by decide)]
      cases hsub : pySubscript s "url" with
      | error e => simp [bind, Except.bind, Except.map]
      | ok u =>
          simp only [bind, Except.bind]
          have hany : ((acc.map fun kv => ((kv.1 : PyVal), eraseSource kv.2)).any
              fun kv => pyValBEq kv.1 u) = acc.any fun kv => pyValBEq kv.1 u := by
            simp only [List.any_map]
            rfl
          by_cases hh : pyHashable u = true
          · by_cases hmem : (acc.any fun kv => pyValBEq kv.1 u) = true
            · simp [hh, hany, hmem, ih acc]
            · have h2 := ih (acc ++ [(u, s)])
              simp only [List.map_append, List.map_cons, List.map_nil] at h2
              simp [hh, hany, eq_false_of_ne_true hmem, h2]
          · simp [eq_false_of_ne_true hh, Except.map]

/-- With `include_raw_content` false, rendering one source ignores both the
token budget and the `raw_content` field. -/
theorem renderSource_erase_false (s : PyVal) (m1 m2 : Int) :
    renderSource (eraseSource s) m1 false = renderSource s m2 false := by
  simp only [renderSource]
  rw [pySubscript_eraseSource s "title" (by decide),
    pySubscript_eraseSource s "url" (by decide),
    pySubscript_eraseSource s "content" (by decide)]
  rfl

/-- With `include_raw_content` false, the formatting loop ignores both the
token budget and every `raw_content` value. -/
theorem formatBlocks_erase_false (srcs : List PyVal) :
    ∀ m1 m2 : Int, formatBlocks (srcs.map eraseSource) m1 false = formatBlocks srcs m2 false := by
  induction srcs with
  | nil => intro m1 m2; rfl
  | cons s rest ih =>
      intro m1 m2
      simp only [List.map_cons, formatBlocks]
      rw [renderSource_erase_false s m1 m2, ih m1 m2]

/-- The whole function with `include_raw_content` false depends only on the
erasure of its input (everything except the results' `raw_content` values)
and not on `max_tokens_per_source`. -/
theorem ddfs_eraseInput (v : PyVal) (m : Int) :
    deduplicate_and_format_sources (eraseInput v) 0 false =
      deduplicate_and_format_sources v m false := by
  simp only [deduplicate_and_format_sources]
  rw [getSourcesList_eraseInput]
  cases hv : getSourcesList v with
  | error e => simp [bind, Except.bind, Except.map]
  | ok srcs =>
      simp only [bind, Except.bind, Except.map]
      have hd := dedupLoop_erase srcs []
      simp only [List.map_nil] at hd
      rw [hd]
      cases hdl : dedupLoop srcs [] with
      | error e => simp [Except.map]
      | ok pairs =>
          simp only [Except.map]
          have hms : (pairs.map fun kv => ((kv.1 : PyVal), eraseSource kv.2)).map Prod.snd =
              (pairs.map Prod.snd).map eraseSource := by
            simp [List.map_map, Function.comp]
          rw [hms, formatBlocks_erase_false (pairs.map Prod.snd) 0 m]

/-- C10: with `include_raw_content` false, two runs of
`deduplicate_and_format_sources` return identical results (string and
printed warnings alike) whenever their inputs agree after erasing every
result's `raw_content` value — even when the runs differ in
`max_tokens_per_source` and in all `raw_content` values: the output depends
only on the results' `title`, `url` and `content` fields and their order. -/
theorem claim_C10_raw_noninterference (a b : PyVal) (m1 m2 : Int)
    (h : eraseInput a = eraseInput b) :
    deduplicate_and_format_sources a m1 false =
      deduplicate_and_format_sources b m2 false := by
  rw [← ddfs_eraseInput a m1, ← ddfs_eraseInput b m2, h]

/-- Witness for C10: two single-source inputs differing only in the
`raw_content` value (a long string vs `None`) and run with different token
budgets produce the same erasure and the identical output. -/
theorem claim_C10_raw_noninterference_witness :
    eraseInput (.dict [("results", .list [.dict [("title", .str "A"), ("url", .str "u"),
        ("content", .str "c"), ("raw_content", .str "AAAAAAAAAA")]])]) =
      eraseInput (.dict [("results", .list [.dict [("title", .str "A"), ("url", .str "u"),
        ("content", .str "c"), ("raw_content", PyVal.none)]])]) ∧
    deduplicate_and_format_sources (.dict [("results", .list [.dict [("title", .str "A"),
        ("url", .str "u"), ("content", .str "c"), ("raw_content", .str "AAAAAAAAAA")]])]) 1 false =
      .ok ("Sources:\n\nSource A:\n===\nURL: u\n===\nMost relevant content from source: c\n===", []) ∧
    deduplicate_and_format_sources (.dict [("results", .list [.dict [("title", .str "A"),
        ("url", .str "u"), ("content", .str "c"), ("raw_content", PyVal.none)]])]) 99 false =
      .ok ("Sources:\n\nSource A:\n===\nURL: u\n===\nMost relevant content from source: c\n===", []) := by
  have h := claim_C10_raw_noninterference
    (.dict [("results", .list [.dict [("title", .str "A"), ("url", .str "u"),
      ("content", .str "c"), ("raw_content", .str "AAAAAAAAAA")]])])
    (.dict [("results", .list [.dict [("title", .str "A"), ("url", .str "u"),
      ("content", .str "c"), ("raw_content", PyVal.none)]])])
    1 99 (by rfl)
  exact ⟨by rfl, h.trans (by rfl), by rfl⟩
